import Mathlib

/-!
Shallow embedding of `src/react_agent/human_in_the_loop.py`.

The module wraps a tool with a human-in-the-loop review step:
`add_human_in_the_loop` coerces its argument to a tool, picks a permissions
configuration, and returns a new tool whose invocation builds an interrupt
request, hands it to the host's interrupt primitive, and branches on the
`type` tag of the first response record.

Python values that can flow through this code (tool arguments, response
payloads) are modelled by the inductive `Value`; Python dicts are association
lists; the host's `interrupt` primitive is a parameter mapping the list of
request payloads to the list of response records; `raise ValueError` and the
`TypeError`s Python itself could raise are the non-`ok` constructors of
`PyResult`.  The second component of the wrapper's result records, in order,
the argument values passed to `ainvoke` of the original tool, so that "the
original tool is invoked with args a" is "the trace equals [a]" and "the
original tool is not invoked" is "the trace is empty".
-/

set_option autoImplicit false

namespace HIL

/-- A Python/JSON-like value: `None`, booleans, integers, strings, lists and
string-keyed dicts. -/
inductive Value where
  | null : Value
  | bool : Bool → Value
  | int : Int → Value
  | str : String → Value
  | arr : List Value → Value
  | obj : List (String × Value) → Value

/-- First-match lookup in an association list, i.e. Python's `d[k]`/`k in d`
on a dict (Python dicts have unique keys, so first-match is exact). -/
def alookup {α : Type} : List (String × α) → String → Option α
  | [], _ => none
  | (k, v) :: rest, key => if k = key then some v else alookup rest key

/-- Python's `d.get(k)` on a dict: the stored value, or `None` when the key
is absent. -/
def dget (d : List (String × Value)) (k : String) : Value :=
  (alookup d k).getD Value.null

/-- Python truthiness of a `Value` (`bool(v)`). -/
def truthy : Value → Bool
  | Value.null => false
  | Value.bool b => b
  | Value.int n => n != 0
  | Value.str s => s != ""
  | Value.arr vs => !vs.isEmpty
  | Value.obj kvs => !kvs.isEmpty

/-- Python's `t == s` where `s` is a string literal: true exactly when `t` is
the same string; values of any other type compare unequal to a string. -/
def pyEqStr : Value → String → Bool
  | Value.str t, s => t == s
  | _, _ => false

/-- Whether the character list `needle` is a prefix of `hay`. -/
def charsPrefixOf : List Char → List Char → Bool
  | [], _ => true
  | _ :: _, [] => false
  | a :: as, b :: bs => a == b && charsPrefixOf as bs

/-- Whether `needle` occurs as a contiguous run inside `hay`. -/
def charsSubOf (needle : List Char) : List Char → Bool
  | [] => needle.isEmpty
  | c :: rest => charsPrefixOf needle (c :: rest) || charsSubOf needle rest

/-- Python's `k in v` for a string `k`: key membership for dicts, substring
test for strings, element equality for lists; `none` models the `TypeError`
raised on the remaining types. -/
def inOp (k : String) : Value → Option Bool
  | Value.obj kvs => some (alookup kvs k).isSome
  | Value.str s => some (charsSubOf k.toList s.toList)
  | Value.arr vs =>
      some (vs.any fun v => match v with
        | Value.str t => t == k
        | _ => false)
  | _ => none

/-- Python's `v[k]` for a string `k`: dict indexing; `none` models the
`KeyError`/`TypeError` raised otherwise. -/
def getItem : Value → String → Option Value
  | Value.obj kvs, k => alookup kvs k
  | _, _ => none

mutual

/-- Python's `repr` of a `Value` (string escaping inside `repr` of a string
is not modelled). -/
def pyRepr : Value → String
  | Value.null => "None"
  | Value.bool true => "True"
  | Value.bool false => "False"
  | Value.int n => toString n
  | Value.str s => "\x27" ++ s ++ "\x27"
  | Value.arr vs => "[" ++ String.intercalate ", " (pyReprList vs) ++ "]"
  | Value.obj kvs => "\x7b" ++ String.intercalate ", " (pyReprPairs kvs) ++ "\x7d"

/-- `repr` of each element of a list. -/
def pyReprList : List Value → List String
  | [] => []
  | v :: vs => pyRepr v :: pyReprList vs

/-- `repr` of each `key: value` entry of a dict. -/
def pyReprPairs : List (String × Value) → List String
  | [] => []
  | (k, v) :: kvs => ("\x27" ++ k ++ "\x27: " ++ pyRepr v) :: pyReprPairs kvs

end

/-- Python's `str`, as used by f-string interpolation: a string stands for
itself, everything else prints as its `repr`. -/
def pyStr : Value → String
  | Value.str s => s
  | v => pyRepr v

/-- Result of running the wrapped tool body: a returned value, a
`raise ValueError(msg)`, or a `TypeError` raised by Python itself. -/
inductive PyResult where
  | ok : Value → PyResult
  | valueError : String → PyResult
  | typeError : PyResult

/-- A `BaseTool`: name, description, argument schema and the (pure model of
the) `ainvoke` behaviour, mapping the argument value to the tool's output. -/
structure Tool where
  name : String
  description : String
  args_schema : Value
  run : Value → Value

/-- A plain Python callable, with the metadata `langchain`'s `tool`
decorator reads off it. -/
structure PlainCallable where
  cname : String
  doc : String
  schema : Value
  fn : Value → Value

/-- `langchain_core.tools.tool` applied to a plain callable: a tool carrying
the callable's metadata and behaviour. -/
def create_tool (f : PlainCallable) : Tool :=
  { name := f.cname, description := f.doc, args_schema := f.schema, run := f.fn }

/-- The argument of `add_human_in_the_loop`: `Callable | BaseTool`. -/
inductive ToolOrCallable where
  | tool : Tool → ToolOrCallable
  | callable : PlainCallable → ToolOrCallable

/-- Lines 37-40: coerce the argument to a `BaseTool` with `create_tool`
unless it already is one. -/
def tool_instance_of : ToolOrCallable → Tool
  | ToolOrCallable.tool t => t
  | ToolOrCallable.callable f => create_tool f

/-- Lines 44-49: the default interrupt configuration. -/
def default_config : List (String × Bool) :=
  [("allow_accept", true), ("allow_edit", true),
   ("allow_respond", true), ("allow_ignore", true)]

/-- Lines 51-53: the supplied `interrupt_config` when it is not `None`,
otherwise `default_config`. -/
def final_interrupt_config : Option (List (String × Bool)) → List (String × Bool)
  | some cfg => cfg
  | none => default_config

/-- Lines 67-74: the interrupt request payload built on each invocation of
the wrapped tool. -/
def interrupt_request (tool_instance : Tool) (cfg : List (String × Bool))
    (tool_input : List (String × Value)) : Value :=
  Value.obj
    [("action_request", Value.obj
        [("action", Value.str tool_instance.name),
         ("args", Value.obj tool_input)]),
     ("config", Value.obj (cfg.map fun kv => (kv.1, Value.bool kv.2))),
     ("description", Value.str
        ("Please review the tool call to \x27" ++ tool_instance.name ++ "\x27."))]

/-- The message of the `ValueError` raised on an `edit` response without
valid nested args (lines 101-103). -/
def editArgsErrorMsg : String :=
  "Edit response type received, but valid \x27args\x27 were not found in the response."

/-- Lines 60-114: the body of the wrapped tool `call_tool_with_interrupt`.
`host` is the host framework's `interrupt` primitive (list of payloads in,
list of response records out).  Returns the Python outcome paired with the
trace of argument values passed to `tool_instance.ainvoke`. -/
def call_tool_with_interrupt (tool_instance : Tool) (cfg : List (String × Bool))
    (host : List Value → List (List (String × Value)))
    (tool_input : List (String × Value)) : PyResult × List Value :=
  let response_list := host [interrupt_request tool_instance cfg tool_input]
  match response_list with
  | [] => (PyResult.valueError "Interrupt did not return a response.", [])
  | response_from_human :: _ =>
    let response_type := dget response_from_human "type"
    let response_args := dget response_from_human "args"
    if pyEqStr response_type "accept" then
      (PyResult.ok (tool_instance.run (Value.obj tool_input)), [Value.obj tool_input])
    else if pyEqStr response_type "edit" then
      if truthy response_args then
        match inOp "args" response_args with
        | none => (PyResult.typeError, [])
        | some false => (PyResult.valueError editArgsErrorMsg, [])
        | some true =>
          match getItem response_args "args" with
          | none => (PyResult.typeError, [])
          | some edited_tool_input =>
              (PyResult.ok (tool_instance.run edited_tool_input), [edited_tool_input])
      else (PyResult.valueError editArgsErrorMsg, [])
    else if pyEqStr response_type "response" then
      (PyResult.ok response_args, [])
    else if pyEqStr response_type "ignore" then
      (PyResult.ok (Value.str
        ("Tool call \x27" ++ tool_instance.name ++ "\x27 was ignored by the user.")), [])
    else
      (PyResult.valueError
        ("Unsupported interrupt response type received: \x27" ++ pyStr response_type ++ "\x27"), [])

/-- The `BaseTool` returned by `add_human_in_the_loop`: the copied metadata
(lines 55-58) plus the invocation behaviour. -/
structure WrappedTool where
  name : String
  description : String
  args_schema : Value
  invoke : (List Value → List (List (String × Value))) →
           List (String × Value) → PyResult × List Value

/-- Lines 14-116: wrap a tool (or plain callable) with the
human-in-the-loop interrupt step. -/
def add_human_in_the_loop (tool_to_wrap : ToolOrCallable)
    (interrupt_config : Option (List (String × Bool))) : WrappedTool :=
  let tool_instance := tool_instance_of tool_to_wrap
  let cfg := final_interrupt_config interrupt_config
  { name := tool_instance.name
    description := tool_instance.description
    args_schema := tool_instance.args_schema
    invoke := fun host tool_input =>
      call_tool_with_interrupt tool_instance cfg host tool_input }

/-! ### Concrete objects used by the witness theorems -/

/-- A concrete tool for witnesses. -/
def demoTool : Tool :=
  { name := "search", description := "Search the web.",
    args_schema := Value.obj [("query", Value.str "string")],
    run := fun v => Value.arr [v] }

/-- The concrete tool, as the argument of `add_human_in_the_loop`. -/
def demoOC : ToolOrCallable := ToolOrCallable.tool demoTool

/-- A concrete caller-supplied argument mapping. -/
def demoInput : List (String × Value) := [("query", Value.str "lean")]

/-- A host interrupt primitive answering every request with the given
response list. -/
def hostWith (resps : List (List (String × Value))) :
    List Value → List (List (String × Value)) :=
  fun _ => resps

/-! ### Claim theorems -/

/-- C1: for every wrapped tool and caller-supplied argument mapping, when
the human response record has type tag "accept", the wrapper invokes the
original tool with exactly the original caller-supplied arguments and
returns that invocation's result. -/
theorem accept_invokes_original_args (t : ToolOrCallable)
    (icfg : Option (List (String × Bool)))
    (host : List Value → List (List (String × Value)))
    (input resp : List (String × Value)) (rest : List (List (String × Value)))
    (hresp : host [interrupt_request (tool_instance_of t)
      (final_interrupt_config icfg) input] = resp :: rest)
    (htype : dget resp "type" = Value.str "accept") :
    (add_human_in_the_loop t icfg).invoke host input =
      (PyResult.ok ((tool_instance_of t).run (Value.obj input)), [Value.obj input]) := by
  simp [add_human_in_the_loop, call_tool_with_interrupt, hresp, htype, pyEqStr]

/-- Witness for C1 at a concrete tool, input and host. -/
theorem accept_invokes_original_args_witness :
    hostWith [[("type", Value.str "accept")]]
        [interrupt_request (tool_instance_of demoOC)
          (final_interrupt_config none) demoInput] =
      [("type", Value.str "accept")] :: [] ∧
    dget [("type", Value.str "accept")] "type" = Value.str "accept" ∧
    (add_human_in_the_loop demoOC none).invoke
        (hostWith [[("type", Value.str "accept")]]) demoInput =
      (PyResult.ok ((tool_instance_of demoOC).run (Value.obj demoInput)),
        [Value.obj demoInput]) :=
  ⟨rfl, rfl,
    accept_invokes_original_args demoOC none
      (hostWith [[("type", Value.str "accept")]]) demoInput
      [("type", Value.str "accept")] [] rfl rfl⟩

/-- C2: for every wrapped tool, when the human response record has type tag
"edit" and its args payload contains a nested "args" field, the wrapper
invokes the original tool with those replacement arguments (the caller's
original arguments play no role) and returns that invocation's result. -/
theorem edit_invokes_replacement_args (t : ToolOrCallable)
    (icfg : Option (List (String × Bool)))
    (host : List Value → List (List (String × Value)))
    (input resp : List (String × Value)) (rest : List (List (String × Value)))
    (kvs : List (String × Value)) (v : Value)
    (hresp : host [interrupt_request (tool_instance_of t)
      (final_interrupt_config icfg) input] = resp :: rest)
    (htype : dget resp "type" = Value.str "edit")
    (hargs : dget resp "args" = Value.obj kvs)
    (hnest : alookup kvs "args" = some v) :
    (add_human_in_the_loop t icfg).invoke host input =
      (PyResult.ok ((tool_instance_of t).run v), [v]) := by
  cases kvs with
  | nil => simp [alookup] at hnest
  | cons hd tl =>
    simp [add_human_in_the_loop, call_tool_with_interrupt, hresp, htype, hargs,
      pyEqStr, truthy, inOp, getItem, hnest]

/-- Witness for C2: the human replaces the query argument. -/
theorem edit_invokes_replacement_args_witness :
    hostWith [[("type", Value.str "edit"),
               ("args", Value.obj [("args", Value.obj [("query", Value.str "mathlib")])])]]
        [interrupt_request (tool_instance_of demoOC)
          (final_interrupt_config none) demoInput] =
      [("type", Value.str "edit"),
       ("args", Value.obj [("args", Value.obj [("query", Value.str "mathlib")])])] :: [] ∧
    dget [("type", Value.str "edit"),
          ("args", Value.obj [("args", Value.obj [("query", Value.str "mathlib")])])]
        "type" = Value.str "edit" ∧
    dget [("type", Value.str "edit"),
          ("args", Value.obj [("args", Value.obj [("query", Value.str "mathlib")])])]
        "args" = Value.obj [("args", Value.obj [("query", Value.str "mathlib")])] ∧
    alookup [("args", Value.obj [("query", Value.str "mathlib")])] "args" =
      some (Value.obj [("query", Value.str "mathlib")]) ∧
    (add_human_in_the_loop demoOC none).invoke
        (hostWith [[("type", Value.str "edit"),
          ("args", Value.obj [("args", Value.obj [("query", Value.str "mathlib")])])]])
        demoInput =
      (PyResult.ok ((tool_instance_of demoOC).run
          (Value.obj [("query", Value.str "mathlib")])),
        [Value.obj [("query", Value.str "mathlib")]]) :=
  ⟨rfl, rfl, rfl, rfl,
    edit_invokes_replacement_args demoOC none
      (hostWith [[("type", Value.str "edit"),
        ("args", Value.obj [("args", Value.obj [("query", Value.str "mathlib")])])]])
      demoInput
      [("type", Value.str "edit"),
       ("args", Value.obj [("args", Value.obj [("query", Value.str "mathlib")])])]
      [] [("args", Value.obj [("query", Value.str "mathlib")])]
      (Value.obj [("query", Value.str "mathlib")])
      rfl rfl rfl rfl⟩

/-- C3: for every wrapped tool, when the human response record has type tag
"response", the wrapper returns the record's args payload verbatim as the
tool's output and never invokes the original tool (empty invocation
trace). -/
theorem response_returns_payload (t : ToolOrCallable)
    (icfg : Option (List (String × Bool)))
    (host : List Value → List (List (String × Value)))
    (input resp : List (String × Value)) (rest : List (List (String × Value)))
    (hresp : host [interrupt_request (tool_instance_of t)
      (final_interrupt_config icfg) input] = resp :: rest)
    (htype : dget resp "type" = Value.str "response") :
    (add_human_in_the_loop t icfg).invoke host input =
      (PyResult.ok (dget resp "args"), []) := by
  simp [add_human_in_the_loop, call_tool_with_interrupt, hresp, htype, pyEqStr]

/-- Witness for C3: the human answers directly. -/
theorem response_returns_payload_witness :
    hostWith [[("type", Value.str "response"), ("args", Value.str "no results")]]
        [interrupt_request (tool_instance_of demoOC)
          (final_interrupt_config none) demoInput] =
      [("type", Value.str "response"), ("args", Value.str "no results")] :: [] ∧
    dget [("type", Value.str "response"), ("args", Value.str "no results")] "type" =
      Value.str "response" ∧
    (add_human_in_the_loop demoOC none).invoke
        (hostWith [[("type", Value.str "response"), ("args", Value.str "no results")]])
        demoInput =
      (PyResult.ok (dget [("type", Value.str "response"),
        ("args", Value.str "no results")] "args"), []) :=
  ⟨rfl, rfl,
    response_returns_payload demoOC none
      (hostWith [[("type", Value.str "response"), ("args", Value.str "no results")]])
      demoInput
      [("type", Value.str "response"), ("args", Value.str "no results")] [] rfl rfl⟩

/-- C4: for every wrapped tool, when the human response record has type tag
"ignore", the wrapper returns the notice string naming the tool and stating
the call was skipped, without invoking the original tool; the returned
string does not depend on the response record, the host or the input, so it
is the same on every "ignore" response for that tool. -/
theorem ignore_returns_notice (t : ToolOrCallable)
    (icfg : Option (List (String × Bool)))
    (host : List Value → List (List (String × Value)))
    (input resp : List (String × Value)) (rest : List (List (String × Value)))
    (hresp : host [interrupt_request (tool_instance_of t)
      (final_interrupt_config icfg) input] = resp :: rest)
    (htype : dget resp "type" = Value.str "ignore") :
    (add_human_in_the_loop t icfg).invoke host input =
      (PyResult.ok (Value.str ("Tool call \x27" ++ (tool_instance_of t).name ++
        "\x27 was ignored by the user.")), []) := by
  simp [add_human_in_the_loop, call_tool_with_interrupt, hresp, htype, pyEqStr]

/-- Witness for C4. -/
theorem ignore_returns_notice_witness :
    hostWith [[("type", Value.str "ignore")]]
        [interrupt_request (tool_instance_of demoOC)
          (final_interrupt_config none) demoInput] =
      [("type", Value.str "ignore")] :: [] ∧
    dget [("type", Value.str "ignore")] "type" = Value.str "ignore" ∧
    (add_human_in_the_loop demoOC none).invoke
        (hostWith [[("type", Value.str "ignore")]]) demoInput =
      (PyResult.ok (Value.str ("Tool call \x27" ++ (tool_instance_of demoOC).name ++
        "\x27 was ignored by the user.")), []) :=
  ⟨rfl, rfl,
    ignore_returns_notice demoOC none (hostWith [[("type", Value.str "ignore")]])
      demoInput [("type", Value.str "ignore")] [] rfl rfl⟩

/-- C10: for every response record with type tag "response" and no "args"
key at all, the wrapper raises no error and returns `None` as the tool's
output, without invoking the original tool. -/
theorem response_missing_args_returns_none (t : ToolOrCallable)
    (icfg : Option (List (String × Bool)))
    (host : List Value → List (List (String × Value)))
    (input resp : List (String × Value)) (rest : List (List (String × Value)))
    (hresp : host [interrupt_request (tool_instance_of t)
      (final_interrupt_config icfg) input] = resp :: rest)
    (htype : alookup resp "type" = some (Value.str "response"))
    (hargs : alookup resp "args" = none) :
    (add_human_in_the_loop t icfg).invoke host input =
      (PyResult.ok Value.null, []) := by
  simp [add_human_in_the_loop, call_tool_with_interrupt, hresp, dget, htype,
    hargs, pyEqStr]

/-- Witness for C10: a "response" record with no "args" key. -/
theorem response_missing_args_returns_none_witness :
    hostWith [[("type", Value.str "response")]]
        [interrupt_request (tool_instance_of demoOC)
          (final_interrupt_config none) demoInput] =
      [("type", Value.str "response")] :: [] ∧
    alookup [("type", Value.str "response")] "type" = some (Value.str "response") ∧
    alookup [("type", Value.str "response")] "args" = none ∧
    (add_human_in_the_loop demoOC none).invoke
        (hostWith [[("type", Value.str "response")]]) demoInput =
      (PyResult.ok Value.null, []) :=
  ⟨rfl, rfl, rfl,
    response_missing_args_returns_none demoOC none
      (hostWith [[("type", Value.str "response")]]) demoInput
      [("type", Value.str "response")] [] rfl rfl rfl⟩

/-- C6: for every response record whose type tag is a string other than
"accept", "edit", "response", "ignore", the `ValueError` raised by the
wrapper contains that unrecognized tag in its message, and the original
tool is not invoked. -/
theorem unknown_type_error_names_tag (t : ToolOrCallable)
    (icfg : Option (List (String × Bool)))
    (host : List Value → List (List (String × Value)))
    (input resp : List (String × Value)) (rest : List (List (String × Value)))
    (s : String)
    (hresp : host [interrupt_request (tool_instance_of t)
      (final_interrupt_config icfg) input] = resp :: rest)
    (htype : dget resp "type" = Value.str s)
    (h1 : s ≠ "accept") (h2 : s ≠ "edit") (h3 : s ≠ "response") (h4 : s ≠ "ignore") :
    ∃ p q : String,
      (add_human_in_the_loop t icfg).invoke host input =
        (PyResult.valueError (p ++ s ++ q), []) := by
  refine ⟨"Unsupported interrupt response type received: \x27", "\x27", ?_⟩
  simp [add_human_in_the_loop, call_tool_with_interrupt, hresp, htype, pyEqStr,
    pyStr, h1, h2, h3, h4]

/-- Witness for C6: an unrecognized tag "reject". -/
theorem unknown_type_error_names_tag_witness :
    hostWith [[("type", Value.str "reject")]]
        [interrupt_request (tool_instance_of demoOC)
          (final_interrupt_config none) demoInput] =
      [("type", Value.str "reject")] :: [] ∧
    dget [("type", Value.str "reject")] "type" = Value.str "reject" ∧
    ("reject" : String) ≠ "accept" ∧ ("reject" : String) ≠ "edit" ∧
    ("reject" : String) ≠ "response" ∧ ("reject" : String) ≠ "ignore" ∧
    (∃ p q : String,
      (add_human_in_the_loop demoOC none).invoke
          (hostWith [[("type", Value.str "reject")]]) demoInput =
        (PyResult.valueError (p ++ "reject" ++ q), [])) :=
  ⟨rfl, rfl, by decide, by decide, by decide, by decide,
    unknown_type_error_names_tag demoOC none
      (hostWith [[("type", Value.str "reject")]]) demoInput
      [("type", Value.str "reject")] [] "reject" rfl rfl
      (by decide) (by decide) (by decide) (by decide)⟩

/-- C7: the tool returned by `add_human_in_the_loop` carries the same name,
description and argument schema as the (coerced) original tool, for a
`BaseTool` argument and for a plain callable alike. -/
theorem wrapper_preserves_tool_metadata (t : ToolOrCallable)
    (icfg : Option (List (String × Bool))) :
    (add_human_in_the_loop t icfg).name = (tool_instance_of t).name ∧
    (add_human_in_the_loop t icfg).description = (tool_instance_of t).description ∧
    (add_human_in_the_loop t icfg).args_schema = (tool_instance_of t).args_schema :=
  ⟨rfl, rfl, rfl⟩

/-- C8: every invocation of the wrapped tool hands the interrupt primitive a
single request record with exactly the fields `action_request` (holding the
tool's name and the caller's arguments), `config` and `description`; with no
`interrupt_config` supplied, `config` maps the four `allow_*` keys to true;
and the wrapper's behaviour depends on the host only through its answer to
that exact request. -/
theorem request_shape_and_default_config (t : ToolOrCallable)
    (icfg : Option (List (String × Bool))) (input : List (String × Value)) :
    (∃ c : List (String × Value),
      interrupt_request (tool_instance_of t) (final_interrupt_config icfg) input =
        Value.obj
          [("action_request", Value.obj
              [("action", Value.str (tool_instance_of t).name),
               ("args", Value.obj input)]),
           ("config", Value.obj c),
           ("description", Value.str ("Please review the tool call to \x27" ++
             (tool_instance_of t).name ++ "\x27."))]) ∧
    interrupt_request (tool_instance_of t) (final_interrupt_config none) input =
      Value.obj
        [("action_request", Value.obj
            [("action", Value.str (tool_instance_of t).name),
             ("args", Value.obj input)]),
         ("config", Value.obj
            [("allow_accept", Value.bool true), ("allow_edit", Value.bool true),
             ("allow_respond", Value.bool true), ("allow_ignore", Value.bool true)]),
         ("description", Value.str ("Please review the tool call to \x27" ++
           (tool_instance_of t).name ++ "\x27."))] ∧
    ∀ host host' : List Value → List (List (String × Value)),
      host [interrupt_request (tool_instance_of t)
        (final_interrupt_config icfg) input] =
        host' [interrupt_request (tool_instance_of t)
          (final_interrupt_config icfg) input] →
      (add_human_in_the_loop t icfg).invoke host input =
        (add_human_in_the_loop t icfg).invoke host' input := by
  refine ⟨⟨_, rfl⟩, rfl, ?_⟩
  intro host host' h
  simp only [add_human_in_the_loop, call_tool_with_interrupt]
  rw [h]

/-- Witness for C8: two hosts that agree on the request give the same
outcome. -/
theorem request_shape_and_default_config_witness :
    hostWith [[("type", Value.str "ignore")]]
        [interrupt_request (tool_instance_of demoOC)
          (final_interrupt_config none) demoInput] =
      (fun ps => if ps.isEmpty then [] else [[("type", Value.str "ignore")]])
        [interrupt_request (tool_instance_of demoOC)
          (final_interrupt_config none) demoInput] ∧
    (add_human_in_the_loop demoOC none).invoke
        (hostWith [[("type", Value.str "ignore")]]) demoInput =
      (add_human_in_the_loop demoOC none).invoke
        (fun ps => if ps.isEmpty then [] else [[("type", Value.str "ignore")]])
        demoInput :=
  ⟨rfl,
    (request_shape_and_default_config demoOC none demoInput).2.2
      (hostWith [[("type", Value.str "ignore")]])
      (fun ps => if ps.isEmpty then [] else [[("type", Value.str "ignore")]]) rfl⟩

/-- A lookup in a bool dict lifted to a `Value` dict finds exactly what the
bool dict holds. -/
theorem alookup_map_bool (c : List (String × Bool)) (k : String) :
    alookup (c.map fun kv => (kv.1, Value.bool kv.2)) k =
      (alookup c k).map Value.bool := by
  induction c with
  | nil => rfl
  | cons hd tl ih =>
    by_cases h : hd.1 = k <;> simp [alookup, h, ih]

/-- C9: a non-`None` `interrupt_config` — the empty mapping included — is
placed verbatim into the request's `config` field: it wholly replaces the
default permissions map, and a permission key it does not mention is absent
from the request (not filled in with a default). -/
theorem custom_config_verbatim (t : ToolOrCallable)
    (c : List (String × Bool)) (input : List (String × Value)) (k : String)
    (hk : alookup c k = none) :
    final_interrupt_config (some c) = c ∧
    interrupt_request (tool_instance_of t) (final_interrupt_config (some c)) input =
      Value.obj
        [("action_request", Value.obj
            [("action", Value.str (tool_instance_of t).name),
             ("args", Value.obj input)]),
         ("config", Value.obj (c.map fun kv => (kv.1, Value.bool kv.2))),
         ("description", Value.str ("Please review the tool call to \x27" ++
           (tool_instance_of t).name ++ "\x27."))] ∧
    alookup (c.map fun kv => (kv.1, Value.bool kv.2)) k = none := by
  refine ⟨rfl, rfl, ?_⟩
  rw [alookup_map_bool, hk]
  rfl

/-- Witness for C9: the empty mapping leaves `allow_ignore` absent, where
the default would have set it to true. -/
theorem custom_config_verbatim_witness :
    alookup ([] : List (String × Bool)) "allow_ignore" = none ∧
    (final_interrupt_config (some []) = [] ∧
     interrupt_request (tool_instance_of demoOC)
        (final_interrupt_config (some [])) demoInput =
       Value.obj
         [("action_request", Value.obj
             [("action", Value.str (tool_instance_of demoOC).name),
              ("args", Value.obj demoInput)]),
          ("config", Value.obj []),
          ("description", Value.str ("Please review the tool call to \x27" ++
            (tool_instance_of demoOC).name ++ "\x27."))] ∧
     alookup (([] : List (String × Bool)).map fun kv => (kv.1, Value.bool kv.2))
       "allow_ignore" = none) :=
  ⟨rfl, custom_config_verbatim demoOC [] demoInput "allow_ignore" rfl⟩

/-- C5: the wrapper raises an immediate `ValueError` — with no retry and
without invoking the original tool (empty invocation trace) — exactly in the
three malformed-input cases: the interrupt returns an empty response list;
an "edit" response lacks a nested "args" field; the response's type tag is
unrecognized.  The second part characterizes the errors over responses whose
args payload is an object or `None`, the shape the inbound contract
allows. -/
theorem fatal_error_exactly_three_cases (t : ToolOrCallable)
    (icfg : Option (List (String × Bool))) (input : List (String × Value)) :
    (∀ host : List Value → List (List (String × Value)),
      host [interrupt_request (tool_instance_of t)
        (final_interrupt_config icfg) input] = [] →
      (add_human_in_the_loop t icfg).invoke host input =
        (PyResult.valueError "Interrupt did not return a response.", [])) ∧
    (∀ (host : List Value → List (List (String × Value)))
       (resp : List (String × Value)) (rest : List (List (String × Value))),
      host [interrupt_request (tool_instance_of t)
        (final_interrupt_config icfg) input] = resp :: rest →
      (dget resp "args" = Value.null ∨ ∃ kvs, dget resp "args" = Value.obj kvs) →
      ((∃ m, (add_human_in_the_loop t icfg).invoke host input =
          (PyResult.valueError m, [])) ↔
        ((dget resp "type" = Value.str "edit" ∧
          getItem (dget resp "args") "args" = none) ∨
         (dget resp "type" ≠ Value.str "accept" ∧
          dget resp "type" ≠ Value.str "edit" ∧
          dget resp "type" ≠ Value.str "response" ∧
          dget resp "type" ≠ Value.str "ignore")))) := by
  constructor
  · intro host h
    simp [add_human_in_the_loop, call_tool_with_interrupt, h]
  · intro host resp rest hresp hwf
    simp only [add_human_in_the_loop, call_tool_with_interrupt, hresp]
    cases hrt : dget resp "type" with
    | null => simp [pyEqStr]
    | bool b => simp [pyEqStr]
    | int n => simp [pyEqStr]
    | arr vs => simp [pyEqStr]
    | obj kvs => simp [pyEqStr]
    | str s =>
      by_cases h1 : s = "accept"
      · subst h1
        simp [pyEqStr]
      · by_cases h2 : s = "edit"
        · subst h2
          rcases hwf with hnull | ⟨kvs, hobj⟩
          · rw [hnull]
            simp [pyEqStr, truthy, getItem]
          · rw [hobj]
            cases kvs with
            | nil => simp [pyEqStr, truthy, getItem, alookup]
            | cons hd tl =>
              cases hl : alookup (hd :: tl) "args" with
              | none => simp [pyEqStr, truthy, inOp, getItem, hl]
              | some v => simp [pyEqStr, truthy, inOp, getItem, hl]
        · by_cases h3 : s = "response"
          · subst h3
            simp [pyEqStr]
          · by_cases h4 : s = "ignore"
            · subst h4
              simp [pyEqStr]
            · simp [pyEqStr, h1, h2, h3, h4]

/-- Witness for C5: the empty response list errors, and so does an "edit"
response with no args payload. -/
theorem fatal_error_exactly_three_cases_witness :
    hostWith [] [interrupt_request (tool_instance_of demoOC)
      (final_interrupt_config none) demoInput] = [] ∧
    (add_human_in_the_loop demoOC none).invoke (hostWith []) demoInput =
      (PyResult.valueError "Interrupt did not return a response.", []) ∧
    hostWith [[("type", Value.str "edit")]]
        [interrupt_request (tool_instance_of demoOC)
          (final_interrupt_config none) demoInput] =
      [("type", Value.str "edit")] :: [] ∧
    dget [("type", Value.str "edit")] "args" = Value.null ∧
    (∃ m, (add_human_in_the_loop demoOC none).invoke
        (hostWith [[("type", Value.str "edit")]]) demoInput =
      (PyResult.valueError m, [])) :=
  ⟨rfl,
    (fatal_error_exactly_three_cases demoOC none demoInput).1 (hostWith []) rfl,
    rfl, rfl,
    ((fatal_error_exactly_three_cases demoOC none demoInput).2
        (hostWith [[("type", Value.str "edit")]])
        [("type", Value.str "edit")] [] rfl (Or.inl rfl)).mpr
      (Or.inl ⟨rfl, rfl⟩)⟩

end HIL
